import Mathlib

/-!
Shallow embedding of the zwo_capture repository (src/scheduler.py,
src/camera_manager.py, src/models.py) and proofs about it.

Timestamps: the code stores times as fixed-width ISO-8601 strings
("%Y-%m-%dT%H:%M:%S") and compares them with SQL string comparison, which on
that fixed-width format is order-isomorphic to chronological order.  We model
timestamps as natural numbers with the usual order.

Floating point settings fields (normalized ROI fractions, max_recording_fps)
are modelled as rationals.
-/

namespace ZwoCapture

/-- models.py ScheduleStatus enum. -/
inductive ScheduleStatus where
  | pending
  | active
  | completed
  | cancelled
  | failed
deriving DecidableEq, Repr

/-- models.py CameraSettings.  Python floats are modelled as rationals. -/
structure CameraSettings where
  exposure : Int
  gain : Int
  binning : Nat
  format : String
  bandwidth : String
  roiX : ℚ
  roiY : ℚ
  roiW : ℚ
  roiH : ℚ
  maxRecordingFps : ℚ
deriving DecidableEq, Repr

/-- Default CameraSettings from models.py. -/
def CameraSettings.default : CameraSettings :=
  { exposure := 10000, gain := 100, binning := 1, format := "raw8",
    bandwidth := "max", roiX := 0, roiY := 0, roiW := 1, roiH := 1,
    maxRecordingFps := 30 }

/-- One row of the scheduled_captures table (scheduler.py init_database).
The settings column stores the snapshot serialized as JSON; the spec's
round-trip property (serialize then deserialize is the identity) lets the
model store the snapshot as the CameraSettings value it serializes. -/
structure ScheduleRecord where
  id : Nat
  name : String
  startTime : Nat
  endTime : Nat
  status : ScheduleStatus
  description : Option String
  settings : Option CameraSettings
  createdAt : Nat
  startedAt : Option Nat
  completedAt : Option Nat
  framesCaptured : Nat
  recordingDirectory : Option String
deriving DecidableEq, Repr

/-- The scheduled_captures table together with the AUTOINCREMENT counter. -/
structure ScheduleDB where
  rows : List ScheduleRecord
  nextId : Nat
deriving DecidableEq, Repr

/-- The WHERE clause of CaptureScheduler._has_schedule_conflict
(scheduler.py lines 350-360), evaluated on one stored row against the proposed
window [S,E): status in (pending, active) and one of the three overlap
disjuncts (existing contains new start, existing contains new end, new
contains existing). -/
def conflictsWith (r : ScheduleRecord) (S E : Nat) : Bool :=
  decide ((r.status = .pending ∨ r.status = .active) ∧
    ((r.startTime < S ∧ S < r.endTime) ∨
     (r.startTime < E ∧ E < r.endTime) ∨
     (S ≤ r.startTime ∧ r.endTime ≤ E)))

/-- CaptureScheduler._has_schedule_conflict: COUNT(*) > 0 over the WHERE
clause above. -/
def hasScheduleConflict (db : ScheduleDB) (S E : Nat) : Bool :=
  db.rows.any (fun r => conflictsWith r S E)

/-- The half-open intervals [s,e) and [S,E) intersect: some instant lies in
both.  This is the spec-side notion of overlap used to judge the conflict
check. -/
def Overlaps (s e S E : Nat) : Prop :=
  ∃ t, s ≤ t ∧ t < e ∧ S ≤ t ∧ t < E

instance (s e S E : Nat) : Decidable (Overlaps s e S E) :=
  decidable_of_iff (s ≤ max s S ∧ max s S < e ∧ S ≤ max s S ∧ max s S < E)
    (by
      constructor
      · intro h
        exact ⟨max s S, h⟩
      · rintro ⟨t, h1, h2, h3, h4⟩
        omega)

/-- The mutable fields of camera_manager.py CameraManager that the verified
operations read or write.  hasCamera models `self.camera is not None`;
isColorCam models camera_info["IsColorCam"]. -/
structure CameraManager where
  hasCamera : Bool
  isConnected : Bool
  isCapturing : Bool
  currentSettings : CameraSettings
  isRecording : Bool
  recordingDirectory : Option String
  framesRecorded : Nat
  lastRecordingFrameTime : ℚ
  activeScheduleId : Option Nat
  isColorCam : Bool
deriving DecidableEq, Repr

/-- CameraManager.start_capture (camera_manager.py lines 346-362): a no-op if
already capturing (checked first); then raises "Camera not connected" if there
is no camera handle or the connected flag is down; otherwise starts streaming
and the capture thread. -/
def startCapture (m : CameraManager) : Except String CameraManager :=
  if m.isCapturing then .ok m
  else if !m.hasCamera || !m.isConnected then .error "Camera not connected"
  else .ok { m with isCapturing := true }

/-- CameraManager.stop_capture (lines 364-376): a no-op if not capturing;
otherwise clears the capturing flag and stops streaming. -/
def stopCapture (m : CameraManager) : CameraManager :=
  if !m.isCapturing then m else { m with isCapturing := false }

/-- Effect of CameraManager._configure_camera (lines 64-167) on the modelled
state: device-side configuration calls do not appear in the state; the one
state mutation is the downgrade of a requested rgb24 format to raw8 on a mono
camera (lines 97-99).  Returns immediately when there is no camera handle. -/
def configureCamera (m : CameraManager) : CameraManager :=
  if !m.hasCamera then m
  else if m.currentSettings.format = "rgb24" ∧ m.isColorCam = false then
    { m with currentSettings := { m.currentSettings with format := "raw8" } }
  else m

/-- CaptureScheduler.create_schedule (scheduler.py lines 290-341).  Returns
the (possibly unchanged) table and either the fresh id or the raised error
message.  Validation order as in the code: start in the past, then inverted
window, then conflict; the row is inserted only after all three checks, with
the table's DEFAULT 'pending' status and the AUTOINCREMENT id.  The snapshot
argument is the camera manager's current settings, which the code serializes
into the settings column (round-trip identity, see ScheduleRecord). -/
def createSchedule (db : ScheduleDB) (name : String) (startT endT : Nat)
    (descr : Option String) (settingsSnapshot : CameraSettings) (now : Nat) :
    ScheduleDB × Except String Nat :=
  if startT ≤ now then (db, .error "Start time must be in the future")
  else if endT ≤ startT then (db, .error "End time must be after start time")
  else if hasScheduleConflict db startT endT then
    (db, .error "Schedule conflicts with existing schedule")
  else
    ({ rows := db.rows ++
        [{ id := db.nextId, name := name, startTime := startT, endTime := endT,
           status := .pending, description := descr,
           settings := some settingsSnapshot, createdAt := now, startedAt := none,
           completedAt := none, framesCaptured := 0,
           recordingDirectory := none }],
       nextId := db.nextId + 1 },
     .ok db.nextId)

/-- CaptureScheduler._update_schedule_status for status FAILED with an error
message (scheduler.py lines 245-250): set status to failed and append the
bracketed error to the COALESCEd description. -/
def markFailed (db : ScheduleDB) (sid : Nat) (msg : String) : ScheduleDB :=
  { db with rows := db.rows.map (fun q =>
      if q.id = sid then
        { q with
          status := .failed
          description := some ((q.description.getD "") ++ " [ERROR: " ++ msg ++ "]") }
      else q) }

/-- The sanitized directory-name component built in _start_scheduled_capture
(line 184): keep alphanumerics, space, dash, underscore, then strip. -/
def safeName (name : String) : String :=
  (((name.toList.filter (fun c => c.isAlphanum || c = ' ' || c = '-' || c = '_'))).asString).trim

/-- CaptureScheduler.cancel_schedule (scheduler.py lines 371-412).  Looks up
the row (404 if absent), refuses a completed row (400), deactivates the
in-memory recording session when the cancelled row is the currently active
one, and sets the row's status to cancelled.  Returns the new table, the new
manager state and the HTTP-style outcome. -/
def cancelSchedule (db : ScheduleDB) (m : CameraManager) (sid : Nat) :
    ScheduleDB × CameraManager × Except (Nat × String) Unit :=
  match db.rows.find? (fun q => q.id == sid) with
  | none => (db, m, .error (404, "Schedule not found"))
  | some r =>
    if r.status = .completed then
      (db, m, .error (400, "Cannot cancel completed schedule"))
    else
      let m1 :=
        if r.status = .active ∧ m.activeScheduleId = some sid then
          { m with
            isRecording := false
            activeScheduleId := none
            recordingDirectory := none
            framesRecorded := 0 }
        else m
      ({ db with rows := db.rows.map (fun q =>
          if q.id = sid then { q with status := .cancelled } else q) },
       m1, .ok ())

/-- CameraManager.start_recording (camera_manager.py lines 440-454), executed
under recording_lock: a no-op if already recording, else point the session at
a fresh timestamped directory and reset the counter and rate-limit clock. -/
def startRecording (m : CameraManager) (now : Nat) : CameraManager :=
  if m.isRecording then m
  else
    { m with
      recordingDirectory := some ("/home/linus/zwo/captures/" ++ toString now)
      isRecording := true
      framesRecorded := 0
      lastRecordingFrameTime := 0 }

/-- CameraManager.stop_recording (lines 456-467), executed under
recording_lock: a no-op if not recording, else clear the session fields. -/
def stopRecording (m : CameraManager) : CameraManager :=
  if !m.isRecording then m
  else
    { m with
      isRecording := false
      recordingDirectory := none
      framesRecorded := 0 }

/-- One pass of the rate-limit gate in
_save_frame_to_disk_with_rate_limiting (lines 469-486) for a frame arriving
at time now with last-write clock lastT: returns whether the frame is
forwarded to the disk-write step and the new last-write clock. -/
def rateLimitStep (maxFps lastT now : ℚ) : Bool × ℚ :=
  if 0 < maxFps then
    if now - lastT < 1 / maxFps then (false, lastT)
    else (true, now)
  else (true, lastT)

/-- Arrival times of the frames actually forwarded to the disk-write step,
threading the last-write clock through rateLimitStep over a whole arrival
sequence. -/
def recordedTimes (maxFps : ℚ) : ℚ → List ℚ → List ℚ
  | _, [] => []
  | lastT, t :: ts =>
    match rateLimitStep maxFps lastT t with
    | (true, last2) => t :: recordedTimes maxFps last2 ts
    | (false, last2) => recordedTimes maxFps last2 ts

/-- The requested-path ROI width computed by _configure_camera (lines
108-126): floor of the normalized width times the sensor width, integer
division by the binning factor when binning > 1, floor to a multiple of 8,
then clamp up to the 64-pixel minimum.  Python's int() truncation agrees with
the floor for the non-negative normalized fractions. -/
def resolvedRoiWidth (roiW : ℚ) (binning maxW : Nat) : Nat :=
  let w1 : Nat := (⌊roiW * (maxW : ℚ)⌋).toNat
  let w2 : Nat := if 1 < binning then w1 / binning else w1
  max ((w2 / 8) * 8) 64

/-- The requested-path ROI height (lines 109-127): as the width, with
divisibility 2 and minimum 32. -/
def resolvedRoiHeight (roiH : ℚ) (binning maxH : Nat) : Nat :=
  let h1 : Nat := (⌊roiH * (maxH : ℚ)⌋).toNat
  let h2 : Nat := if 1 < binning then h1 / binning else h1
  max ((h2 / 2) * 2) 32

/-- The fallback full-frame ROI width taken when setting the requested ROI
fails (lines 146-150): sensor width over binning, floored to a multiple of 8.
No minimum clamp is applied on this path. -/
def fallbackRoiWidth (binning maxW : Nat) : Nat :=
  ((maxW / binning) / 8) * 8

/-- The fallback full-frame ROI height (lines 148-150): sensor height over
binning, floored to a multiple of 2.  No minimum clamp is applied. -/
def fallbackRoiHeight (binning maxH : Nat) : Nat :=
  ((maxH / binning) / 2) * 2

/-- The ROI start position computed by _configure_camera (lines 108-119) and
_update_roi_position (lines 198-204). -/
def roiStartPosition (s : CameraSettings) (maxW maxH : Nat) : Nat × Nat :=
  let x1 : Nat := (⌊s.roiX * (maxW : ℚ)⌋).toNat
  let y1 : Nat := (⌊s.roiY * (maxH : ℚ)⌋).toNat
  if 1 < s.binning then (x1 / s.binning, y1 / s.binning) else (x1, y1)

/-- Effect of CameraManager._update_roi_position (lines 188-213) on the
modelled state: only the device-side start position moves (success path);
no tracked field changes. -/
def updateRoiPosition (m : CameraManager) : CameraManager := m

/-- The fast-path test of update_settings (lines 716-725): every field other
than the ROI position agrees and at least one of roi_x, roi_y differs. -/
def onlyRoiPositionChanged (old s : CameraSettings) : Bool :=
  decide (old.exposure = s.exposure ∧ old.gain = s.gain ∧
    old.binning = s.binning ∧ old.format = s.format ∧
    old.bandwidth = s.bandwidth ∧ old.roiW = s.roiW ∧ old.roiH = s.roiH ∧
    (old.roiX ≠ s.roiX ∨ old.roiY ≠ s.roiY))

/-- CameraManager._needs_recording_restart (lines 591-607): some field other
than the ROI position differs. -/
def needsRecordingRestart (old s : CameraSettings) : Bool :=
  decide (old.exposure ≠ s.exposure ∨ old.gain ≠ s.gain ∨
    old.binning ≠ s.binning ∨ old.format ≠ s.format ∨
    old.bandwidth ≠ s.bandwidth ∨ old.roiW ≠ s.roiW ∨ old.roiH ≠ s.roiH)

/-- The operations update_settings can invoke, in invocation order, used to
state which paths stop and restart capture. -/
inductive CamAction where
  | stopCaptureAct
  | configureAct
  | roiPositionAct
  | startCaptureAct
deriving DecidableEq, Repr

/-- CameraManager.update_settings (lines 711-742).  When only the ROI
position changed and a connected camera handle exists, the settings are
replaced and only the in-place position update runs.  Otherwise capture is
stopped if it was running, the full reconfiguration is applied, and capture
is restarted if it was running (start_capture can raise "Camera not
connected"; the mutations already made persist, as in the Python, and the
message is reported third).  Returns the final state, the invoked operations
in order, and the raised error if any. -/
def updateSettings (m : CameraManager) (s : CameraSettings) :
    CameraManager × List CamAction × Option String :=
  if onlyRoiPositionChanged m.currentSettings s && m.hasCamera && m.isConnected then
    (updateRoiPosition { m with currentSettings := s }, [.roiPositionAct], none)
  else
    let wasCapturing := m.isCapturing
    let m1 := if wasCapturing then stopCapture m else m
    let m2 := configureCamera { m1 with currentSettings := s }
    if wasCapturing then
      match startCapture m2 with
      | .ok m3 => (m3, [.stopCaptureAct, .configureAct, .startCaptureAct], none)
      | .error e => (m2, [.stopCaptureAct, .configureAct, .startCaptureAct], some e)
    else (m2, [.configureAct], none)

/-- The saved-settings application step of _start_scheduled_capture
(scheduler.py lines 170-176): the stored snapshot, when present, is parsed
and handed to update_settings inside its own try/except, so an error raised
there (such as the failed capture restart while disconnected) is demoted to
a warning while the state mutated so far persists — which is exactly taking
the state component of updateSettings and dropping its error component.  An
absent snapshot (or a parse failure, which the same except swallows before
any mutation) leaves the state unchanged. -/
def applySavedSettings (m : CameraManager) : Option CameraSettings → CameraManager
  | none => m
  | some s => (updateSettings m s).1

/-- CaptureScheduler._start_scheduled_capture (scheduler.py lines 155-209),
the single start path shared by the poll loop's start check and by recovery.
If a manual recording (recording with no owning schedule id) is in progress,
the record is marked failed with a conflict note and nothing starts.
Otherwise the record's saved settings snapshot is applied (lines 170-176,
errors demoted to warnings — note this step stops capture without restarting
it when the camera is disconnected), then capture is started if not already
running (a raised "Camera not connected" goes to the outer handler, which
marks the record failed and keeps the state mutated so far); on success the
recording fields are pointed at a fresh name-derived directory, the record's
id becomes the active schedule id, and the row is updated to active with
started_at and the directory. -/
def startScheduledCapture (db : ScheduleDB) (m : CameraManager) (sid : Nat)
    (name : String) (snapshot : Option CameraSettings) (now : Nat) :
    ScheduleDB × CameraManager :=
  if m.isRecording = true ∧ m.activeScheduleId = none then
    (markFailed db sid "Conflict with manual recording", m)
  else
    match startCapture (applySavedSettings m snapshot) with
    | .error e => (markFailed db sid e, applySavedSettings m snapshot)
    | .ok m1 =>
        let dir := "captures/" ++ toString now ++ "_" ++ safeName name
        let m2 := { m1 with
                    recordingDirectory := some dir
                    isRecording := true
                    framesRecorded := 0
                    lastRecordingFrameTime := 0
                    activeScheduleId := some sid }
        ({ db with rows := db.rows.map (fun q =>
            if q.id = sid then
              { q with
                status := .active
                startedAt := some now
                recordingDirectory := some dir }
            else q) },
         m2)

/-- CaptureScheduler._end_scheduled_capture (lines 211-237): clear the
recording fields and mark the row completed with the final frame count. -/
def endScheduledCapture (db : ScheduleDB) (m : CameraManager) (sid : Nat)
    (now : Nat) : ScheduleDB × CameraManager :=
  ({ db with rows := db.rows.map (fun q =>
      if q.id = sid then
        { q with
          status := .completed
          completedAt := some now
          framesCaptured := m.framesRecorded }
      else q) },
   { m with
     isRecording := false
     recordingDirectory := none
     framesRecorded := 0
     activeScheduleId := none })

/-- The WHERE clause of recover_schedules (lines 270-276): rows that are
active, or pending with a window already straddling now
(start_time <= now AND end_time > now). -/
def recoverCandidates (db : ScheduleDB) (now : Nat) : List ScheduleRecord :=
  db.rows.filter (fun r =>
    decide (r.status = .active ∨
      (r.status = .pending ∧ r.startTime ≤ now ∧ now < r.endTime)))

/-- The row the recovery query's ORDER BY start_time / take-first selects: the
first row of minimal start time. -/
def minByStart : List ScheduleRecord → Option ScheduleRecord
  | [] => none
  | r :: rs => some (rs.foldl (fun b q => if q.startTime < b.startTime then q else b) r)

/-- CaptureScheduler.recover_schedules (lines 262-288): if any candidate
exists, resume the earliest-starting one through _start_scheduled_capture;
all other rows are left for later poll cycles. -/
def recoverSchedules (db : ScheduleDB) (m : CameraManager) (now : Nat) :
    ScheduleDB × CameraManager :=
  match minByStart (recoverCandidates db now) with
  | none => (db, m)
  | some r => startScheduledCapture db m r.id r.name r.settings now

/-- Insertion step of the start-time ordering used below. -/
def insertByStart (r : ScheduleRecord) : List ScheduleRecord → List ScheduleRecord
  | [] => [r]
  | q :: qs => if r.startTime < q.startTime then r :: q :: qs else q :: insertByStart r qs

/-- Stable sort by start time, modelling ORDER BY start_time. -/
def sortByStart (l : List ScheduleRecord) : List ScheduleRecord :=
  l.foldr insertByStart []

/-- The rows selected by _check_schedules_to_start (lines 111-116): pending
rows whose start time lies in [now, now+60], ordered by start time. -/
def startableAt (db : ScheduleDB) (now : Nat) : List ScheduleRecord :=
  sortByStart (db.rows.filter (fun r =>
    decide (r.status = .pending ∧ now ≤ r.startTime ∧ r.startTime ≤ now + 60)))

/-- CaptureScheduler._check_schedules_to_start (lines 101-125): run the shared
start path over each startable row in order. -/
def checkSchedulesToStart (db : ScheduleDB) (m : CameraManager) (now : Nat) :
    ScheduleDB × CameraManager :=
  (startableAt db now).foldl
    (fun p r => startScheduledCapture p.1 p.2 r.id r.name r.settings now) (db, m)

/-- One mutation of the recording-session fields, tagged with whether the
code performs it while holding recording_lock. -/
structure RecordingWrite where
  fieldName : String
  underRecordingLock : Bool
deriving DecidableEq, Repr

/-- The recording-field writes of start_recording (camera_manager.py lines
440-454), all inside `with self.recording_lock`. -/
def startRecordingWrites : List RecordingWrite :=
  [⟨"recording_directory", true⟩, ⟨"is_recording", true⟩,
   ⟨"frames_recorded", true⟩, ⟨"last_recording_frame_time", true⟩]

/-- The recording-field writes of stop_recording (lines 456-467), all inside
`with self.recording_lock`. -/
def stopRecordingWrites : List RecordingWrite :=
  [⟨"is_recording", true⟩, ⟨"recording_directory", true⟩,
   ⟨"frames_recorded", true⟩]

/-- The recording-field writes of CaptureScheduler._start_scheduled_capture
(scheduler.py lines 185-191): direct assignments to the camera manager's
fields with no lock acquisition anywhere in the function. -/
def startScheduledCaptureWrites : List RecordingWrite :=
  [⟨"recording_directory", false⟩, ⟨"is_recording", false⟩,
   ⟨"frames_recorded", false⟩, ⟨"last_recording_frame_time", false⟩,
   ⟨"active_schedule_id", false⟩]

/-- The recording-field writes of CaptureScheduler._end_scheduled_capture
(lines 218-221), again with no lock acquisition. -/
def endScheduledCaptureWrites : List RecordingWrite :=
  [⟨"is_recording", false⟩, ⟨"recording_directory", false⟩,
   ⟨"frames_recorded", false⟩, ⟨"active_schedule_id", false⟩]

/-- The recording-field writes of CaptureScheduler.cancel_schedule (lines
393-397), with no lock acquisition. -/
def cancelScheduleWrites : List RecordingWrite :=
  [⟨"is_recording", false⟩, ⟨"active_schedule_id", false⟩,
   ⟨"recording_directory", false⟩, ⟨"frames_recorded", false⟩]

/-- The recording-field writes of the capture loop's
_save_frame_to_disk_with_rate_limiting / _save_frame_to_disk path (lines
483 and 533), also performed without recording_lock. -/
def saveFrameWrites : List RecordingWrite :=
  [⟨"last_recording_frame_time", false⟩, ⟨"frames_recorded", false⟩]

/-- Concrete fixture: a connected, idle manager with default settings. -/
def mgrConnected : CameraManager :=
  { hasCamera := true
    isConnected := true
    isCapturing := false
    currentSettings := CameraSettings.default
    isRecording := false
    recordingDirectory := none
    framesRecorded := 0
    lastRecordingFrameTime := 0
    activeScheduleId := none
    isColorCam := false }

/-- Concrete fixture: a disconnected manager still in the valid
capturing-while-disconnected transient. -/
def mgrDisconnectedCapturing : CameraManager :=
  { mgrConnected with
    hasCamera := false
    isConnected := false
    isCapturing := true }

/-- Concrete fixture: default settings with only roi_x moved. -/
def settingsRoiMoved : CameraSettings :=
  { CameraSettings.default with roiX := 1 }

/-- Concrete fixture: default settings with only the exposure changed. -/
def settingsExposureChanged : CameraSettings :=
  { CameraSettings.default with exposure := 20000 }

/-- Concrete fixture: one stored record in the terminal failed status. -/
def recFailed : ScheduleRecord :=
  { id := 1
    name := "n"
    startTime := 10
    endTime := 20
    status := .failed
    description := none
    settings := none
    createdAt := 5
    startedAt := none
    completedAt := none
    framesCaptured := 0
    recordingDirectory := none }

/-- Concrete fixture: the same record in active status, carrying the default
settings snapshot as records created through create_schedule do. -/
def recActive : ScheduleRecord :=
  { recFailed with
    status := .active
    settings := some CameraSettings.default }

/-- Concrete fixture: a table holding only the active record. -/
def dbActive : ScheduleDB := { rows := [recActive], nextId := 2 }

/-- Concrete fixture: a manager capturing and recording on behalf of the
schedule with id 1. -/
def mgrScheduled : CameraManager :=
  { mgrConnected with
    isCapturing := true
    isRecording := true
    recordingDirectory := some "d"
    framesRecorded := 7
    activeScheduleId := some 1 }

theorem overlaps_iff (s e S E : Nat) (hs : s < e) (hS : S < E) :
    Overlaps s e S E ↔ (S < e ∧ s < E) := by
  constructor
  · rintro ⟨t, h1, h2, h3, h4⟩
    omega
  · intro h
    exact ⟨max s S, by omega⟩

theorem conflictsWith_iff (r : ScheduleRecord) (S E : Nat)
    (hr : r.startTime < r.endTime) (hSE : S < E) :
    conflictsWith r S E = true ↔
      ((r.status = .pending ∨ r.status = .active) ∧
        Overlaps r.startTime r.endTime S E) := by
  unfold conflictsWith
  rw [decide_eq_true_iff, overlaps_iff _ _ _ _ hr hSE]
  constructor
  · rintro ⟨hst, hov⟩
    exact ⟨hst, by omega⟩
  · rintro ⟨hst, hov⟩
    exact ⟨hst, by omega⟩

/-- C1: schedule creation passes the conflict check iff the proposed half-open
window [S,E) intersects no stored pending/active record's [start,end) window.
Stored windows are well-formed (start < end, enforced at creation) and the
proposed window satisfies S < E (checked before the conflict query runs).
Records in completed, cancelled or failed status are ignored, and a window
merely touching a boundary (an existing end equal to S, or an existing start
equal to E) never conflicts. -/
theorem c1_conflict_iff_overlap (db : ScheduleDB) (S E : Nat) (hSE : S < E)
    (hwf : ∀ r ∈ db.rows, r.startTime < r.endTime) :
    (hasScheduleConflict db S E = false ↔
      ∀ r ∈ db.rows, (r.status = .pending ∨ r.status = .active) →
        ¬ Overlaps r.startTime r.endTime S E)
    ∧ (∀ r ∈ db.rows, r.status = .completed ∨ r.status = .cancelled ∨ r.status = .failed →
        conflictsWith r S E = false)
    ∧ (∀ r ∈ db.rows, r.endTime = S ∨ r.startTime = E →
        conflictsWith r S E = false) := by
  refine ⟨?_, ?_, ?_⟩
  · unfold hasScheduleConflict
    rw [List.any_eq_false]
    constructor
    · intro h r hr hst hov
      have hc := h r hr
      rw [conflictsWith_iff r S E (hwf r hr) hSE] at hc
      exact hc ⟨hst, hov⟩
    · intro h r hr
      rw [Bool.not_eq_true, Bool.eq_false_iff, Ne, conflictsWith_iff r S E (hwf r hr) hSE]
      rintro ⟨hst, hov⟩
      exact h r hr hst hov
  · intro r hr hterm
    unfold conflictsWith
    rw [decide_eq_false_iff_not]
    rintro ⟨hst, -⟩
    rcases hterm with h | h | h <;> rcases hst with h2 | h2 <;> simp [h] at h2
  · intro r hr htouch
    have hwfr := hwf r hr
    unfold conflictsWith
    rw [decide_eq_false_iff_not]
    rintro ⟨-, hov⟩
    omega

/-- Closed witness for C1 at a concrete table: one active record over [10,20),
proposed windows [12,15) (conflict), [3,9) (no conflict), [20,30) (touching
boundary, no conflict). -/
theorem c1_witness :
    (10 : Nat) < 20 ∧
    hasScheduleConflict
      ⟨[⟨1, "a", 10, 20, .active, none, none, 0, none, none, 0, none⟩], 2⟩ 20 30 = false := by
  constructor
  · decide
  · have h := c1_conflict_iff_overlap
      ⟨[⟨1, "a", 10, 20, .active, none, none, 0, none, none, 0, none⟩], 2⟩ 20 30
      (by decide) (by decide)
    rw [h.1]
    decide

/-- C3: create_schedule raises a validation error whenever the start is not
in the future, the window is inverted or empty, or the window conflicts with
a stored pending/active window, and in every such case the table is returned
unchanged; when none of these hold, exactly one new row is appended, carrying
the table's default pending status and the fresh AUTOINCREMENT id, which is
returned and is distinct from every stored id (the AUTOINCREMENT counter
dominates all stored ids). -/
theorem c3_create_validation (db : ScheduleDB) (name : String)
    (startT endT : Nat) (descr : Option String) (sj : CameraSettings) (now : Nat)
    (hid : ∀ r ∈ db.rows, r.id < db.nextId) :
    ((startT ≤ now ∨ endT ≤ startT ∨ hasScheduleConflict db startT endT = true) →
      (createSchedule db name startT endT descr sj now).1 = db ∧
      ∃ e, (createSchedule db name startT endT descr sj now).2 = .error e)
    ∧ (now < startT → startT < endT →
       hasScheduleConflict db startT endT = false →
      (createSchedule db name startT endT descr sj now).1.rows =
        db.rows ++
          [{ id := db.nextId
             name := name
             startTime := startT
             endTime := endT
             status := .pending
             description := descr
             settings := some sj
             createdAt := now
             startedAt := none
             completedAt := none
             framesCaptured := 0
             recordingDirectory := none }]
      ∧ (createSchedule db name startT endT descr sj now).2 = .ok db.nextId
      ∧ db.nextId ∉ db.rows.map (fun r => r.id)) := by
  constructor
  · intro h
    unfold createSchedule
    rcases le_or_lt startT now with h1 | h1
    · simp [h1]
    rcases le_or_lt endT startT with h2 | h2
    · simp [Nat.not_le.mpr h1, Nat.le_of_lt_succ, h2]
    have h3 : hasScheduleConflict db startT endT = true := by
      rcases h with h | h | h
      · omega
      · omega
      · exact h
    simp [Nat.not_le.mpr h1, Nat.not_le.mpr h2, h3]
  · intro h1 h2 h3
    unfold createSchedule
    simp only [Nat.not_le.mpr h1, if_false, Nat.not_le.mpr h2, h3]
    refine ⟨by simp, by simp, ?_⟩
    intro hmem
    rcases List.mem_map.mp hmem with ⟨r, hr, hrid⟩
    exact absurd hrid (Nat.ne_of_lt (hid r hr))

/-- Closed witness for C3: on the empty table, a window [3,20) with now = 5
is rejected with the table unchanged, and a window [10,20) is accepted,
appending one pending row with fresh id 0. -/
theorem c3_witness :
    (createSchedule { rows := [], nextId := 0 } "n" 3 20 none
      CameraSettings.default 5).1 = { rows := [], nextId := 0 } ∧
    (createSchedule { rows := [], nextId := 0 } "n" 10 20 none
      CameraSettings.default 5).2 = .ok 0 :=
  ⟨((c3_create_validation { rows := [], nextId := 0 } "n" 3 20 none
      CameraSettings.default 5 (by decide)).1 (by decide)).1,
   (((c3_create_validation { rows := [], nextId := 0 } "n" 10 20 none
      CameraSettings.default 5 (by decide)).2 (by decide) (by decide)
      (by decide)).2).1⟩

/-- C4 is refuted as stated: on the full-frame fallback path (taken when
setting the requested ROI fails) no minimum-size clamp is applied, so with
sensor max width 40 and binning 1 — and any requested normalized ROI — the
applied width is 40, which is a multiple of 8 but below the claimed minimum
of 64. -/
theorem c4_counterexample :
    ((1 : Nat) = 1 ∨ (1 : Nat) = 2 ∨ (1 : Nat) = 4) ∧
    fallbackRoiWidth 1 40 = 40 ∧ ¬ (64 ≤ fallbackRoiWidth 1 40) := by
  decide

/-- C4 (amended): the requested-path ROI always satisfies all four
constraints (width a multiple of 8 and at least 64, height a multiple of 2
and at least 32) for every normalized rectangle, sensor size and binning
factor; the fallback full-frame ROI always satisfies the two divisibility
constraints, and satisfies the minimum sizes exactly when the binned sensor
is large enough (width at least 64 and height at least 32 after binning). -/
theorem c4_roi_constraints (roiW roiH : ℚ) (binning maxW maxH : Nat)
    (_hb : binning = 1 ∨ binning = 2 ∨ binning = 4) :
    (resolvedRoiWidth roiW binning maxW) % 8 = 0
    ∧ 64 ≤ resolvedRoiWidth roiW binning maxW
    ∧ (resolvedRoiHeight roiH binning maxH) % 2 = 0
    ∧ 32 ≤ resolvedRoiHeight roiH binning maxH
    ∧ (fallbackRoiWidth binning maxW) % 8 = 0
    ∧ (fallbackRoiHeight binning maxH) % 2 = 0
    ∧ (64 ≤ maxW / binning → 64 ≤ fallbackRoiWidth binning maxW)
    ∧ (32 ≤ maxH / binning → 32 ≤ fallbackRoiHeight binning maxH) := by
  unfold resolvedRoiWidth resolvedRoiHeight fallbackRoiWidth fallbackRoiHeight
  refine ⟨?_, ?_, ?_, ?_, ?_, ?_, ?_, ?_⟩
  · dsimp only
    generalize (⌊roiW * (maxW : ℚ)⌋).toNat = w1
    split <;> omega
  · dsimp only
    generalize (⌊roiW * (maxW : ℚ)⌋).toNat = w1
    split <;> omega
  · dsimp only
    generalize (⌊roiH * (maxH : ℚ)⌋).toNat = h1
    split <;> omega
  · dsimp only
    generalize (⌊roiH * (maxH : ℚ)⌋).toNat = h1
    split <;> omega
  · omega
  · omega
  · omega
  · omega

/-- Closed witness for C4 on a realistic sensor: full-frame request on a
1000x800 sensor at binning 2 satisfies the minimums on both paths. -/
theorem c4_witness :
    64 ≤ resolvedRoiWidth 1 2 1000 ∧ 64 ≤ fallbackRoiWidth 2 1000 ∧
    32 ≤ resolvedRoiHeight 1 2 800 ∧ 32 ≤ fallbackRoiHeight 2 800 := by
  have h := c4_roi_constraints 1 1 2 1000 800 (by decide)
  exact ⟨h.2.1, h.2.2.2.2.2.2.1 (by decide), h.2.2.2.1,
    h.2.2.2.2.2.2.2 (by decide)⟩

theorem configureCamera_proj (m : CameraManager) :
    (configureCamera m).isCapturing = m.isCapturing ∧
    (configureCamera m).hasCamera = m.hasCamera ∧
    (configureCamera m).isConnected = m.isConnected ∧
    (configureCamera m).isRecording = m.isRecording ∧
    (configureCamera m).recordingDirectory = m.recordingDirectory ∧
    (configureCamera m).framesRecorded = m.framesRecorded ∧
    (configureCamera m).activeScheduleId = m.activeScheduleId := by
  unfold configureCamera
  split_ifs <;> simp

theorem stopCapture_eq_of_capturing (m : CameraManager)
    (h : m.isCapturing = true) :
    stopCapture m = { m with isCapturing := false } := by
  simp [stopCapture, h]

theorem startCapture_eq_of_ready (m : CameraManager)
    (h1 : m.isCapturing = false) (h2 : m.hasCamera = true)
    (h3 : m.isConnected = true) :
    startCapture m = .ok { m with isCapturing := true } := by
  simp [startCapture, h1, h2, h3]

theorem needsRestart_not_onlyRoiPos (old s : CameraSettings)
    (h : needsRecordingRestart old s = true) :
    onlyRoiPositionChanged old s = false := by
  simp only [needsRecordingRestart, decide_eq_true_eq] at h
  simp only [onlyRoiPositionChanged, decide_eq_false_iff_not]
  tauto

/-- C5 is refuted as stated: with the camera disconnected but still in the
valid capturing-while-disconnected transient, a settings update differing
only in roi_x takes the full-reconfiguration path, stopping capture (and
failing to restart it), instead of the claimed in-place position update. -/
theorem c5_counterexample :
    onlyRoiPositionChanged mgrDisconnectedCapturing.currentSettings
      settingsRoiMoved = true ∧
    mgrDisconnectedCapturing.isCapturing = true ∧
    CamAction.stopCaptureAct ∈
      (updateSettings mgrDisconnectedCapturing settingsRoiMoved).2.1 ∧
    (updateSettings mgrDisconnectedCapturing settingsRoiMoved).1.isCapturing
      = false := by
  refine ⟨by decide, rfl, by decide, by decide⟩

/-- C5 (amended): with a connected camera handle, update_settings on a pair
differing only in roi_x and/or roi_y performs only the in-place ROI position
update, leaving capture uninterrupted; on a pair where any other field
(exposure, gain, binning, format, bandwidth, roi_width, roi_height) differs,
it stops capture iff it was running, reconfigures, and restarts it, raising
nothing, with the capturing flag restored and the active recording session's
directory, frame counter and schedule attribution unchanged throughout.
Without a connected camera even a position-only change takes the full path
(the refutation above). -/
theorem c5_update_settings (m : CameraManager) (s : CameraSettings)
    (hcam : m.hasCamera = true) (hconn : m.isConnected = true) :
    (onlyRoiPositionChanged m.currentSettings s = true →
      updateSettings m s =
        ({ m with currentSettings := s }, [.roiPositionAct], none))
    ∧ (needsRecordingRestart m.currentSettings s = true →
      (updateSettings m s).2.1 =
        (if m.isCapturing then
          [CamAction.stopCaptureAct, .configureAct, .startCaptureAct]
         else [CamAction.configureAct])
      ∧ (updateSettings m s).2.2 = none
      ∧ (updateSettings m s).1.isCapturing = m.isCapturing
      ∧ (updateSettings m s).1.isRecording = m.isRecording
      ∧ (updateSettings m s).1.recordingDirectory = m.recordingDirectory
      ∧ (updateSettings m s).1.framesRecorded = m.framesRecorded
      ∧ (updateSettings m s).1.activeScheduleId = m.activeScheduleId) := by
  constructor
  · intro h
    simp [updateSettings, updateRoiPosition, h, hcam, hconn]
  · intro h
    have honly := needsRestart_not_onlyRoiPos _ _ h
    cases hc : m.isCapturing with
    | false =>
      have hstep : updateSettings m s =
          (configureCamera { m with currentSettings := s },
           [CamAction.configureAct], none) := by
        simp [updateSettings, honly, hc]
      rcases configureCamera_proj { m with currentSettings := s } with
        ⟨p1, p2, p3, p4, p5, p6, p7⟩
      rw [hstep]
      simp_all
    | true =>
      have hm1 : stopCapture m = { m with isCapturing := false } :=
        stopCapture_eq_of_capturing m hc
      have hready : startCapture
          (configureCamera { m with currentSettings := s, isCapturing := false }) =
          .ok { configureCamera { m with currentSettings := s, isCapturing := false }
                with isCapturing := true } := by
        rcases configureCamera_proj
          { m with currentSettings := s, isCapturing := false } with
          ⟨p1, p2, p3, p4, p5, p6, p7⟩
        exact startCapture_eq_of_ready _ (by simp_all) (by simp_all) (by simp_all)
      have hstep : updateSettings m s =
          ({ configureCamera { m with currentSettings := s, isCapturing := false }
             with isCapturing := true },
           [CamAction.stopCaptureAct, .configureAct, .startCaptureAct], none) := by
        simp [updateSettings, honly, hc, hm1, hready]
      rcases configureCamera_proj
        { m with currentSettings := s, isCapturing := false } with
        ⟨p1, p2, p3, p4, p5, p6, p7⟩
      rw [hstep]
      simp_all

/-- Closed witness for the amended C5: on the connected idle manager, a
position-only change takes only the in-place path and an exposure change
takes the reconfiguration path with every recording field untouched. -/
theorem c5_witness :
    updateSettings mgrConnected settingsRoiMoved =
      ({ mgrConnected with currentSettings := settingsRoiMoved },
       [CamAction.roiPositionAct], none) ∧
    (updateSettings mgrConnected settingsExposureChanged).2.1 =
      [CamAction.configureAct] ∧
    (updateSettings mgrConnected settingsExposureChanged).1.isRecording =
      mgrConnected.isRecording :=
  ⟨(c5_update_settings mgrConnected settingsRoiMoved rfl rfl).1 (by decide),
   by
    have h := (c5_update_settings mgrConnected settingsExposureChanged rfl rfl).2
      (by decide)
    exact ⟨h.1, h.2.2.2.1⟩⟩

theorem recordedTimes_chain (f : ℚ) (hf : 0 < f) (ts : List ℚ) :
    ∀ lastT : ℚ,
      List.Chain' (fun a b => 1 / f ≤ b - a) (recordedTimes f lastT ts) ∧
      (∀ h0 ∈ (recordedTimes f lastT ts).head?, 1 / f ≤ h0 - lastT) := by
  induction ts with
  | nil =>
    intro lastT
    simp [recordedTimes]
  | cons t ts ih =>
    intro lastT
    by_cases hlt : t - lastT < 1 / f
    · have hrl : rateLimitStep f lastT t = (false, lastT) := by
        unfold rateLimitStep
        rw [if_pos hf, if_pos hlt]
      have hstep : recordedTimes f lastT (t :: ts) = recordedTimes f lastT ts := by
        simp only [recordedTimes, hrl]
      rw [hstep]
      exact ih lastT
    · have hrl : rateLimitStep f lastT t = (true, t) := by
        unfold rateLimitStep
        rw [if_pos hf, if_neg hlt]
      have hstep : recordedTimes f lastT (t :: ts) = t :: recordedTimes f t ts := by
        simp only [recordedTimes, hrl]
      rw [hstep]
      rcases ih t with ⟨hchain, hhead⟩
      constructor
      · cases hrec : recordedTimes f t ts with
        | nil => simp
        | cons u us =>
          rw [hrec] at hchain hhead
          exact List.chain'_cons.mpr ⟨hhead u rfl, hchain⟩
      · intro h0 hh0
        simp only [List.head?_cons, Option.mem_def, Option.some.injEq] at hh0
        rw [← hh0]
        linarith [not_lt.mp hlt]

theorem recordedTimes_zero (ts : List ℚ) : ∀ lastT : ℚ,
    recordedTimes 0 lastT ts = ts := by
  induction ts with
  | nil => intro lastT; rfl
  | cons t ts ih =>
    intro lastT
    simp [recordedTimes, rateLimitStep, ih]

/-- C6: while a recording session is active with max_recording_fps = f > 0,
an arriving frame is forwarded to the disk-write step iff at least 1/f
seconds have elapsed since the session's last-write clock, so over any
arrival sequence no two consecutively forwarded frames are less than 1/f
apart; the first frame after a session start (clock 0) is forwarded whenever
its wall-clock time is at least 1/f; and with f = 0 every frame is
forwarded. -/
theorem c6_rate_limiting (f lastT now : ℚ) (ts : List ℚ) (hf : 0 < f) :
    ((rateLimitStep f lastT now).1 = true ↔ 1 / f ≤ now - lastT)
    ∧ List.Chain' (fun a b => 1 / f ≤ b - a) (recordedTimes f lastT ts)
    ∧ (1 / f ≤ now → (rateLimitStep f 0 now).1 = true)
    ∧ recordedTimes 0 lastT ts = ts := by
  have hiff : ∀ l n : ℚ, (rateLimitStep f l n).1 = true ↔ 1 / f ≤ n - l := by
    intro l n
    unfold rateLimitStep
    rw [if_pos hf]
    by_cases hlt : n - l < 1 / f
    · rw [if_pos hlt]
      constructor
      · intro h
        exact absurd h (by simp)
      · intro h
        linarith
    · rw [if_neg hlt]
      constructor
      · intro h
        linarith [not_lt.mp hlt]
      · intro h
        rfl
  refine ⟨hiff lastT now, (recordedTimes_chain f hf ts lastT).1, ?_,
    recordedTimes_zero ts lastT⟩
  intro hnow
  exact (hiff 0 now).mpr (by linarith)

/-- Closed witness for C6 at f = 10 over the arrivals 1, 21/20, 11/10: the
gate opens iff 1/10 elapsed, the forwarded times obey the 1/10 spacing, and
the first frame at time 1 passes the fresh-session clock. -/
theorem c6_witness :
    (((rateLimitStep 10 0 1).1 = true ↔ (1 : ℚ) / 10 ≤ 1 - 0)
    ∧ List.Chain' (fun a b => (1 : ℚ) / 10 ≤ b - a)
        (recordedTimes 10 0 [1, 21/20, 11/10])
    ∧ ((1 : ℚ) / 10 ≤ 1 → (rateLimitStep 10 0 1).1 = true)
    ∧ recordedTimes 0 0 [(1 : ℚ), 21/20, 11/10] = [1, 21/20, 11/10]) :=
  c6_rate_limiting 10 0 1 [1, 21/20, 11/10] (by norm_num)

/-- C7 is refuted as stated: in the disconnected capturing transient,
start_capture takes the idempotent early return and reports success with no
state change, rather than failing with the not-connected error. -/
theorem c7_counterexample :
    mgrDisconnectedCapturing.isConnected = false ∧
    startCapture mgrDisconnectedCapturing = .ok mgrDisconnectedCapturing :=
  ⟨rfl, rfl⟩

/-- C7 (amended): start_capture is idempotent — while capture is already
running it returns with no state change, regardless of connection — and when
capture is not running it fails with "Camera not connected" whenever the
camera handle is absent or the connected flag is down, starting the capture
loop only when not capturing, handle present and connected. -/
theorem c7_start_capture (m : CameraManager) :
    (m.isCapturing = true → startCapture m = .ok m)
    ∧ (m.isCapturing = false →
        (m.hasCamera = false ∨ m.isConnected = false) →
        startCapture m = .error "Camera not connected")
    ∧ (m.isCapturing = false → m.hasCamera = true → m.isConnected = true →
        startCapture m = .ok { m with isCapturing := true }) := by
  refine ⟨?_, ?_, ?_⟩
  · intro h
    simp [startCapture, h]
  · intro h hd
    rcases hd with hd | hd <;> simp [startCapture, h, hd]
  · intro h1 h2 h3
    exact startCapture_eq_of_ready m h1 h2 h3

/-- Closed witness for the amended C7: on the connected idle manager,
start_capture starts the loop; calling it again is a no-op. -/
theorem c7_witness :
    startCapture mgrConnected = .ok { mgrConnected with isCapturing := true } ∧
    startCapture { mgrConnected with isCapturing := true } =
      .ok { mgrConnected with isCapturing := true } :=
  ⟨(c7_start_capture mgrConnected).2.2 rfl rfl rfl,
   (c7_start_capture { mgrConnected with isCapturing := true }).1 rfl⟩

theorem foldl_minBy_mem (rs : List ScheduleRecord) : ∀ b : ScheduleRecord,
    rs.foldl (fun b q => if q.startTime < b.startTime then q else b) b = b ∨
    rs.foldl (fun b q => if q.startTime < b.startTime then q else b) b ∈ rs := by
  induction rs with
  | nil =>
    intro b
    left
    rfl
  | cons q rs ih =>
    intro b
    rw [List.foldl_cons]
    by_cases hq : q.startTime < b.startTime
    · rw [if_pos hq]
      rcases ih q with h | h
      · right
        rw [h]
        exact List.mem_cons_self q rs
      · right
        exact List.mem_cons_of_mem q h
    · rw [if_neg hq]
      rcases ih b with h | h
      · left
        exact h
      · right
        exact List.mem_cons_of_mem q h

theorem foldl_minBy_le (rs : List ScheduleRecord) : ∀ b : ScheduleRecord,
    (rs.foldl (fun b q => if q.startTime < b.startTime then q else b) b).startTime
      ≤ b.startTime ∧
    ∀ q ∈ rs,
      (rs.foldl (fun b q => if q.startTime < b.startTime then q else b) b).startTime
        ≤ q.startTime := by
  induction rs with
  | nil =>
    intro b
    exact ⟨le_refl _, by simp⟩
  | cons q rs ih =>
    intro b
    rw [List.foldl_cons]
    by_cases hq : q.startTime < b.startTime
    · rw [if_pos hq]
      rcases ih q with ⟨h1, h2⟩
      refine ⟨by omega, ?_⟩
      intro p hp
      rcases List.mem_cons.mp hp with rfl | hp
      · exact h1
      · exact h2 p hp
    · rw [if_neg hq]
      rcases ih b with ⟨h1, h2⟩
      refine ⟨h1, ?_⟩
      intro p hp
      rcases List.mem_cons.mp hp with rfl | hp
      · omega
      · exact h2 p hp

theorem minByStart_spec (l : List ScheduleRecord) (r : ScheduleRecord)
    (h : minByStart l = some r) :
    r ∈ l ∧ ∀ q ∈ l, r.startTime ≤ q.startTime := by
  cases l with
  | nil => simp [minByStart] at h
  | cons a as =>
    unfold minByStart at h
    injection h with h
    subst h
    constructor
    · rcases foldl_minBy_mem as a with h | h
      · rw [h]
        exact List.mem_cons_self a as
      · exact List.mem_cons_of_mem a h
    · intro q hq
      rcases List.mem_cons.mp hq with hqa | hq
      · rw [hqa]
        exact (foldl_minBy_le as a).1
      · exact (foldl_minBy_le as a).2 q hq

theorem stopCapture_proj (m : CameraManager) :
    (stopCapture m).hasCamera = m.hasCamera ∧
    (stopCapture m).isConnected = m.isConnected := by
  unfold stopCapture
  split <;> exact ⟨rfl, rfl⟩

theorem startCapture_connected (m m1 : CameraManager)
    (h : startCapture m = .ok m1) :
    m1.hasCamera = m.hasCamera ∧ m1.isConnected = m.isConnected := by
  unfold startCapture at h
  split at h
  · injection h with h
    subst h
    exact ⟨rfl, rfl⟩
  · split at h
    · simp at h
    · injection h with h
      subst h
      exact ⟨rfl, rfl⟩

theorem startCapture_ok_of_connected (m : CameraManager)
    (h2 : m.hasCamera = true) (h3 : m.isConnected = true) :
    ∃ m1, startCapture m = .ok m1 := by
  cases hc : m.isCapturing with
  | false => exact ⟨{ m with isCapturing := true },
      startCapture_eq_of_ready m hc h2 h3⟩
  | true => exact ⟨m, by simp [startCapture, hc]⟩

theorem updateSettings_connected (m : CameraManager) (s : CameraSettings) :
    (updateSettings m s).1.hasCamera = m.hasCamera ∧
    (updateSettings m s).1.isConnected = m.isConnected := by
  unfold updateSettings
  split
  · exact ⟨rfl, rfl⟩
  · dsimp only
    by_cases hcap : m.isCapturing = true
    · simp only [hcap, if_true]
      rcases configureCamera_proj { stopCapture m with currentSettings := s }
        with ⟨-, p2, p3, -, -, -, -⟩
      rcases stopCapture_proj m with ⟨r2, r3⟩
      split
      · rename_i m3 heq
        rcases startCapture_connected _ _ heq with ⟨q1, q2⟩
        constructor
        · rw [q1, p2]
          exact r2
        · rw [q2, p3]
          exact r3
      · constructor
        · rw [p2]
          exact r2
        · rw [p3]
          exact r3
    · simp only [hcap, if_false]
      rcases configureCamera_proj { m with currentSettings := s }
        with ⟨-, p2, p3, -, -, -, -⟩
      exact ⟨p2, p3⟩

theorem applySavedSettings_connected (m : CameraManager)
    (snap : Option CameraSettings) :
    (applySavedSettings m snap).hasCamera = m.hasCamera ∧
    (applySavedSettings m snap).isConnected = m.isConnected := by
  cases snap with
  | none => exact ⟨rfl, rfl⟩
  | some s => exact updateSettings_connected m s

theorem startScheduledCapture_success (db : ScheduleDB) (m : CameraManager)
    (sid : Nat) (name : String) (snapshot : Option CameraSettings) (now : Nat)
    (h1 : ¬ (m.isRecording = true ∧ m.activeScheduleId = none))
    (h2 : m.hasCamera = true) (h3 : m.isConnected = true) :
    (startScheduledCapture db m sid name snapshot now).2.activeScheduleId = some sid
    ∧ (startScheduledCapture db m sid name snapshot now).2.isRecording = true
    ∧ (startScheduledCapture db m sid name snapshot now).2.framesRecorded = 0
    ∧ (startScheduledCapture db m sid name snapshot now).2.recordingDirectory =
        some ("captures/" ++ toString now ++ "_" ++ safeName name)
    ∧ (startScheduledCapture db m sid name snapshot now).1.rows =
        db.rows.map (fun q =>
          if q.id = sid then
            { q with
              status := .active
              startedAt := some now
              recordingDirectory :=
                some ("captures/" ++ toString now ++ "_" ++ safeName name) }
          else q) := by
  rcases applySavedSettings_connected m snapshot with ⟨q2, q3⟩
  rcases startCapture_ok_of_connected (applySavedSettings m snapshot)
    (by rw [q2, h2]) (by rw [q3, h3]) with ⟨m1, hm1⟩
  unfold startScheduledCapture
  rw [if_neg h1, hm1]
  simp

/-- C8: recover_schedules starts at most one schedule — among all rows that
are active, or pending with start ≤ now < end, none means no change at all,
and otherwise exactly the earliest-starting candidate is resumed through the
shared _start_scheduled_capture path — saved-settings application included —
so (absent a conflicting manual recording, and with the camera connected, the
conditions under which that path succeeds) the recording session is
attributed to that record's id, the record is marked active, and every row
with a different id is carried over unmodified for later poll cycles. -/
theorem c8_recover (db : ScheduleDB) (m : CameraManager) (now : Nat)
    (hnomanual : ¬ (m.isRecording = true ∧ m.activeScheduleId = none))
    (hcam : m.hasCamera = true) (hconn : m.isConnected = true) :
    (recoverCandidates db now = [] → recoverSchedules db m now = (db, m))
    ∧ (∀ r, minByStart (recoverCandidates db now) = some r →
        r ∈ recoverCandidates db now
        ∧ (∀ q ∈ recoverCandidates db now, r.startTime ≤ q.startTime)
        ∧ (recoverSchedules db m now).2.activeScheduleId = some r.id
        ∧ (recoverSchedules db m now).2.isRecording = true
        ∧ (recoverSchedules db m now).1.rows =
            db.rows.map (fun q =>
              if q.id = r.id then
                { q with
                  status := .active
                  startedAt := some now
                  recordingDirectory :=
                    some ("captures/" ++ toString now ++ "_" ++ safeName r.name) }
              else q)
        ∧ ∀ q ∈ db.rows, q.id ≠ r.id → q ∈ (recoverSchedules db m now).1.rows) := by
  constructor
  · intro h
    unfold recoverSchedules
    rw [h]
    rfl
  · intro r hmin
    have hrec : recoverSchedules db m now =
        startScheduledCapture db m r.id r.name r.settings now := by
      unfold recoverSchedules
      rw [hmin]
    rcases minByStart_spec _ _ hmin with ⟨hmem, hle⟩
    rcases startScheduledCapture_success db m r.id r.name r.settings now
      hnomanual hcam hconn with ⟨p1, p2, p3, p4, p5⟩
    rw [hrec]
    refine ⟨hmem, hle, p1, p2, p5, ?_⟩
    intro q hq hne
    rw [p5]
    exact List.mem_map.mpr ⟨q, hq, by rw [if_neg hne]⟩

/-- Closed witness for C8: recovering the one-row table whose record is
active over [10,20) at now = 15 resumes recording attributed to id 1 with
the record marked active. -/
theorem c8_witness :
    (recoverSchedules dbActive mgrConnected 15).2.activeScheduleId = some 1
    ∧ (recoverSchedules dbActive mgrConnected 15).2.isRecording = true := by
  have h := (c8_recover dbActive mgrConnected 15 (by decide)
    rfl rfl).2 recActive rfl
  exact ⟨h.2.2.1, h.2.2.2.1⟩

/-- C9 is refuted as stated: the manual start path does all its
recording-field writes under recording_lock, but the schedule runner's start
path performs its writes to the very same fields with the lock never held,
so the claimed serialization of all recording-field mutations through the
recording lock does not hold. -/
theorem c9_counterexample :
    startRecordingWrites.all (fun w => w.underRecordingLock) = true ∧
    startScheduledCaptureWrites.all (fun w => w.underRecordingLock) = false ∧
    (RecordingWrite.mk "is_recording" false) ∈ startScheduledCaptureWrites := by
  decide

/-- C9 (amended): the state carries a single recording session structurally
(one flag, one directory, one counter), and the manual start_recording and
stop_recording paths serialize every recording-field mutation under
recording_lock; but the schedule runner's start, end and cancel paths and
the capture loop's disk-write path mutate the same fields without acquiring
the lock, so mutual exclusion between a concurrent manual start and a
scheduled start is not provided by the recording lock. -/
theorem c9_lock_discipline :
    (∀ w ∈ startRecordingWrites, w.underRecordingLock = true)
    ∧ (∀ w ∈ stopRecordingWrites, w.underRecordingLock = true)
    ∧ (∀ w ∈ startScheduledCaptureWrites, w.underRecordingLock = false)
    ∧ (∀ w ∈ endScheduledCaptureWrites, w.underRecordingLock = false)
    ∧ (∀ w ∈ cancelScheduleWrites, w.underRecordingLock = false)
    ∧ (∀ w ∈ saveFrameWrites, w.underRecordingLock = false)
    ∧ (∃ w ∈ startScheduledCaptureWrites, w.fieldName = "is_recording") := by
  decide

/-- C10: cancelling the currently active schedule (the looked-up row is
active and owns the manager's active schedule id) immediately deactivates
the recording session — recording flag cleared, directory none, frame
counter zero, active schedule id cleared — succeeds, and leaves the
capturing flag exactly as it was. -/
theorem c10_cancel_active (db : ScheduleDB) (m : CameraManager) (sid : Nat)
    (r : ScheduleRecord)
    (hfind : db.rows.find? (fun q => q.id == sid) = some r)
    (hact : r.status = .active) (hown : m.activeScheduleId = some sid) :
    (cancelSchedule db m sid).2.1.isRecording = false
    ∧ (cancelSchedule db m sid).2.1.recordingDirectory = none
    ∧ (cancelSchedule db m sid).2.1.framesRecorded = 0
    ∧ (cancelSchedule db m sid).2.1.activeScheduleId = none
    ∧ (cancelSchedule db m sid).2.1.isCapturing = m.isCapturing
    ∧ (cancelSchedule db m sid).2.2 = .ok () := by
  have hne : r.status ≠ .completed := by
    rw [hact]
    decide
  unfold cancelSchedule
  rw [hfind]
  simp [hne, hact, hown]

/-- Closed witness for C10: cancelling schedule 1 while the manager is
capturing and recording for it clears the session and keeps capture on. -/
theorem c10_witness :
    (cancelSchedule dbActive mgrScheduled 1).2.1.isRecording = false
    ∧ (cancelSchedule dbActive mgrScheduled 1).2.1.isCapturing = true := by
  have h := c10_cancel_active dbActive mgrScheduled 1 recActive rfl rfl rfl
  exact ⟨h.1, h.2.2.2.2.1⟩

end ZwoCapture
